import Mathlib

/-!
Shallow embedding of the case-intake and resolution tracker (src/app.py).

The program is a Streamlit CRUD application over two SQLite tables.  The
stateful pieces are embedded as pure functions over explicit state:

* the `cases` table (one JSON blob per `case_id`, `case_id` PRIMARY KEY,
  written with `INSERT OR REPLACE`) is a `List Case`; `save_case` models
  the SQLite REPLACE conflict resolution (delete any row with the key,
  then insert);
* `resolve_case` (src/app.py lines 717-776) becomes a function from the
  store, the current case, the submitted notes and the pressed button to
  the new store and the optionally-updated case (`none` = validation
  error, nothing written);
* `create_new_case` / `generate_case_id` (lines 486-544) are parametrised
  by the strings the real code obtains from `datetime.now()` and
  `uuid.uuid4()`;
* `datetime.strptime(s, "%Y-%m-%d %H:%M:%S")` is embedded by `parseDT`,
  following CPython's `_strptime` regular expressions for the directives
  `%Y %m %d %H %M %S` (fixed four digits for `%Y`, one-or-two digit
  fields with the exact alternation ranges for the rest, full-string
  match) plus the `datetime` constructor's range checks (year >= 1, day
  within the month).
-/

structure CaseResolution where
  notes : String
  action_taken : String
  timestamp : String
deriving DecidableEq, Repr

structure CaseTimestamps where
  received : Option String
  logged : String
  resolved : Option String
deriving DecidableEq, Repr

structure CaseReporter where
  name : String
  role : String
  agent_number : Option String
  contact : Option String
deriving DecidableEq, Repr

structure CaseIssue where
  type : String
  description : String
  attachments : List String
deriving DecidableEq, Repr

structure Case where
  case_id : String
  channel : String
  timestamps : CaseTimestamps
  reporter : CaseReporter
  region : String
  issue : CaseIssue
  status : String
  resolution : Option CaseResolution
  handled_by : String
deriving DecidableEq, Repr

/-- The raw values `new_case_form` collects and stores in
`st.session_state.form_data` (src/app.py lines 621-634).  Fields the form
may leave unset (`agent_num`, `phone`, `email`, `received_time`) are
`Option String`, matching the `None` the code stores there. -/
structure FormData where
  channel : String
  name : String
  role : String
  agent_num : Option String
  phone : Option String
  email : Option String
  received_time : Option String
  region : String
  issue_type : String
  description : String
  resolution_notes : String
  attachments : List String
deriving DecidableEq, Repr

/-- Python truthiness of an optional string: `None` and `""` are falsy. -/
def truthyS : Option String → Bool
  | none => false
  | some s => s ≠ ""

/-- Python `a or b` on two optional strings, as used for
`form_data.get('phone') or form_data.get('email')` (src/app.py line 520). -/
def pyOrStr (a b : Option String) : Option String :=
  if truthyS a then a else b

/-! Section: case store (src/app.py lines 110-134)

The `cases` table has `case_id TEXT PRIMARY KEY` and rows are written with
`INSERT OR REPLACE`: SQLite deletes any existing row with the same key and
inserts the new one. -/

/-- Embeds `save_case` (src/app.py lines 110-117): insert-or-replace by `case_id`. -/
def save_case (s : List Case) (c : Case) : List Case :=
  s.filter (fun x => !(x.case_id == c.case_id)) ++ [c]

/-- Embeds `get_all_cases` (src/app.py lines 119-126): `SELECT case_data FROM cases`,
decoding each stored JSON blob; the store is modelled post-decoding, so this
returns the rows as they are. -/
def get_all_cases (s : List Case) : List Case := s

/-- Embeds `delete_case` (src/app.py lines 128-134). -/
def delete_case (s : List Case) (case_id : String) : List Case :=
  s.filter (fun x => !(x.case_id == case_id))

/-! Section: case creation (src/app.py lines 486-544) -/

/-- Embeds `generate_case_id` (src/app.py lines 486-492):
`f"VL-{datetime.now().strftime('%Y%m%d')}-{str(uuid.uuid4())[:8]}"`,
parametrised by the strftime result and the uuid string. -/
def generate_case_id (dateStr uuidStr : String) : String :=
  "VL-" ++ dateStr ++ "-" ++ String.mk (uuidStr.data.take 8)

/-- Embeds `validate_case_form` (src/app.py lines 494-503): all five fields truthy. -/
def validate_case_form (name role region issue_type description : String) : Bool :=
  name ≠ "" && role ≠ "" && region ≠ "" && issue_type ≠ "" && description ≠ ""

/-- The channel-conditional checks `new_case_form` performs after
`validate_case_form` (src/app.py lines 637-647): Agent role needs an agent
number, WhatsApp/Voice Call need a phone, Email needs an email address. -/
def channel_cond_ok (form : FormData) : Bool :=
  (form.role ≠ "Agent" || truthyS form.agent_num) &&
  (!(form.channel == "WhatsApp" || form.channel == "Voice Call") || truthyS form.phone) &&
  (form.channel ≠ "Email" || truthyS form.email)

/-- Embeds `create_new_case` (src/app.py lines 505-544), parametrised by the
strings the code obtains from `datetime.now()` / `uuid.uuid4()` and by the
acting user's name (`st.session_state.user['username']`).  `resolution` is
`None` unless `form_data.get('resolution_notes')` is truthy, in which case
it is the "Initial notes" record (lines 529 and 533-539). -/
def create_new_case (form : FormData) (dateStr uuidStr now username : String) : Case :=
  { case_id := generate_case_id dateStr uuidStr
    channel := form.channel
    timestamps := { received := form.received_time, logged := now, resolved := none }
    reporter := { name := form.name, role := form.role,
                  agent_number := form.agent_num,
                  contact := pyOrStr form.phone form.email }
    region := form.region
    issue := { type := form.issue_type, description := form.description,
               attachments := form.attachments }
    status := "Open"
    resolution :=
      if form.resolution_notes ≠ "" then
        some { notes := form.resolution_notes, action_taken := "Initial notes",
               timestamp := now }
      else none
    handled_by := username }

/-! Section: case resolution (src/app.py lines 717-776) -/

/-- The two submit buttons of the resolution form. -/
inductive ResolveAction where
  | close
  | escalate
deriving DecidableEq, Repr

/-- Embeds `resolve_case` (src/app.py lines 717-776), the state transition behind
the "Close Case" / "Escalate" buttons: empty notes → validation error,
nothing changes and nothing is saved; otherwise the case's status becomes
"Closed" (close) or "Open" (escalate — the code comments "Treat escalated
cases as Open"), `resolution` is replaced, and the case is written back
through `save_case`.  Returns the new store and the updated case (`none`
on the validation error). -/
def resolve_case (s : List Case) (c : Case) (resolution_notes : String)
    (act : ResolveAction) (now : String) : List Case × Option Case :=
  if resolution_notes = "" then (s, none)
  else
    let c' : Case :=
      { c with
        status := match act with | .close => "Closed" | .escalate => "Open"
        resolution := some
          { notes := resolution_notes
            action_taken := match act with
              | .close => "Closed by agent"
              | .escalate => "Escalated to senior support"
            timestamp := now } }
    (save_case s c', some c')

/-! Section: filtering and metrics (src/app.py lines 778-793 and 839-868) -/

/-- Embeds `filter_cases` (src/app.py lines 778-793), with the selected filter and
the store contents made explicit: an empty store yields `[]`; `'All'` yields
everything; `'Open'` keeps statuses `Open` and `Escalated`; any other filter
value (the UI offers `'Closed'`) keeps the cases whose status equals it. -/
def filter_cases (filt : String) (cases : List Case) : List Case :=
  if cases = [] then []
  else if filt = "All" then cases
  else if filt = "Open" then
    cases.filter (fun c => c.status == "Open" || c.status == "Escalated")
  else cases.filter (fun c => c.status == filt)

/-- The `closed_cases` count of `dashboard` (src/app.py line 866). -/
def closed_count (cases : List Case) : Nat :=
  (cases.filter (fun c => c.status == "Closed")).length

/-- The `open_cases` count of `dashboard` (src/app.py line 862). -/
def open_count (cases : List Case) : Nat :=
  (cases.filter (fun c => c.status == "Open" || c.status == "Escalated")).length

/-- Embeds `resolution_rate` of `dashboard` (src/app.py line 867):
`(closed_cases / len(cases)) * 100 if cases else 0`, over ℚ. -/
def resolution_rate (cases : List Case) : ℚ :=
  if cases = [] then 0
  else ((closed_count cases : ℚ) / (cases.length : ℚ)) * 100

/-! Section: user store, seeding and login (src/app.py lines 84-108 and 453-481) -/

structure User where
  username : String
  password : String
  role : String
  region : String
  active : Bool
deriving DecidableEq, Repr

/-- The row `init_db` tries to insert (src/app.py lines 102-105). -/
def defaultAdmin : User :=
  { username := "admin", password := "admin123", role := "Admin",
    region := "All", active := true }

/-- The seeding part of `init_db` (src/app.py lines 102-105):
`INSERT OR IGNORE INTO users VALUES ('admin','admin123','Admin','All',True)` —
the row is inserted only when no row with primary key `admin` exists. -/
def init_db (users : List User) : List User :=
  if users.any (fun u => u.username == "admin") then users
  else users ++ [defaultAdmin]

/-- The credential check of `login_page` (src/app.py line 468):
`next((u for u in get_all_users() if u['username'] == username and
u['password'] == password and u['active']), None)`. -/
def login (users : List User) (username password : String) : Option User :=
  users.find? (fun u => u.username == username && u.password == password && u.active)

/-! Section: datetime parsing and the WhatsApp response metric
(src/app.py lines 706-713)

`datetime.strptime(s, "%Y-%m-%d %H:%M:%S")` is embedded following CPython's
`_strptime` patterns: `%Y` is exactly four digits; `%m` matches
`1[0-2]|0[1-9]|[1-9]`, `%d` matches `3[01]|[12]\d|0[1-9]|[1-9]`, `%H`
matches `2[0-3]|[0-1]\d|\d`, `%M`/`%S` match `[0-5]\d|\d` (each: two digits
when the two-digit value is in range, else one digit); the whole string
must be consumed, and the `datetime` constructor then requires
`1 <= year` and `day <= days in the month`. -/

def digitVal (c : Char) : Nat := c.toNat - 48

/-- One numeric `strptime` field: take two digits when they form a value
accepted by the two-digit branch of the directive's pattern, otherwise one
digit accepted by the one-digit branch. -/
def munchField (valid2 valid1 : Nat → Bool) : List Char → Option (Nat × List Char)
  | c1 :: c2 :: rest =>
    if c1.isDigit && c2.isDigit && valid2 (digitVal c1 * 10 + digitVal c2) then
      some (digitVal c1 * 10 + digitVal c2, rest)
    else if c1.isDigit && valid1 (digitVal c1) then
      some (digitVal c1, c2 :: rest)
    else none
  | [c1] =>
    if c1.isDigit && valid1 (digitVal c1) then some (digitVal c1, []) else none
  | [] => none

def expectChar (c : Char) : List Char → Option (List Char)
  | x :: rest => if x = c then some rest else none
  | [] => none

/-- Directive `%Y`: exactly four digits. -/
def parse4Digits : List Char → Option (Nat × List Char)
  | a :: b :: c :: d :: rest =>
    if a.isDigit && b.isDigit && c.isDigit && d.isDigit then
      some (((digitVal a * 10 + digitVal b) * 10 + digitVal c) * 10 + digitVal d, rest)
    else none
  | _ => none

structure DT where
  year : Nat
  month : Nat
  day : Nat
  hour : Nat
  minute : Nat
  second : Nat
deriving DecidableEq, Repr

def isLeap (y : Nat) : Bool := (y % 4 == 0 && y % 100 ≠ 0) || y % 400 == 0

def daysInMonth (y m : Nat) : Nat :=
  if m = 2 then (if isLeap y then 29 else 28)
  else if m = 4 || m = 6 || m = 9 || m = 11 then 30
  else 31

def daysBeforeMonth (y m : Nat) : Nat :=
  (List.getD [0, 0, 31, 59, 90, 120, 151, 181, 212, 243, 273, 304, 334] m 0) +
    (if 3 ≤ m && isLeap y then 1 else 0)

/-- Days from 0001-01-01 (proleptic Gregorian), as `datetime.toordinal() - 1`. -/
def daysFromCivil (y m d : Nat) : Nat :=
  365 * (y - 1) + (y - 1) / 4 - (y - 1) / 100 + (y - 1) / 400 +
    daysBeforeMonth y m + (d - 1)

/-- Seconds from 0001-01-01 00:00:00; differences of these are exactly
`(a - b).total_seconds()` for naive `datetime`s. -/
def dtSecs (t : DT) : Nat :=
  daysFromCivil t.year t.month t.day * 86400 +
    t.hour * 3600 + t.minute * 60 + t.second

/-- Embeds `datetime.strptime(s, "%Y-%m-%d %H:%M:%S")`: either the parsed value or
`none` where the Python call raises `ValueError`. -/
def parseDT (s : String) : Option DT := do
  let (y, r1) ← parse4Digits s.data
  let r2 ← expectChar '-' r1
  let (mo, r3) ← munchField (fun v => 1 ≤ v && v ≤ 12) (fun v => 1 ≤ v) r2
  let r4 ← expectChar '-' r3
  let (d, r5) ← munchField (fun v => 1 ≤ v && v ≤ 31) (fun v => 1 ≤ v) r4
  let r6 ← expectChar ' ' r5
  let (h, r7) ← munchField (fun v => v ≤ 23) (fun _ => true) r6
  let r8 ← expectChar ':' r7
  let (mi, r9) ← munchField (fun v => v ≤ 59) (fun _ => true) r8
  let r10 ← expectChar ':' r9
  let (se, r11) ← munchField (fun v => v ≤ 59) (fun _ => true) r10
  if r11 = [] && 1 ≤ y && d ≤ daysInMonth y mo then
    some { year := y, month := mo, day := d, hour := h, minute := mi, second := se }
  else none

/-- The WhatsApp response-time metric of `display_case_details`
(src/app.py lines 706-713): computed only when the channel is WhatsApp and
`case['timestamps'].get('received')` is truthy; both `received` and
`logged` are then parsed, and any `ValueError` is swallowed by the bare
`except: pass`, omitting the metric.  The value is
`(logged - received).total_seconds() / 60`. -/
def whatsapp_response_minutes (c : Case) : Option ℚ :=
  if c.channel = "WhatsApp" then
    match c.timestamps.received with
    | none => none
    | some r =>
      if r = "" then none
      else
        match parseDT r, parseDT c.timestamps.logged with
        | some rd, some ld =>
          some ((((dtSecs ld : ℤ) - (dtSecs rd : ℤ) : ℤ) : ℚ) / 60)
        | _, _ => none
  else none

/-! Section: concrete sample data used by counterexamples and witnesses -/

/-- A concrete well-formed case with the given status. -/
def sampleCase (st : String) : Case :=
  { case_id := "VL-20240101-1a2b3c4d"
    channel := "Email"
    timestamps := { received := none, logged := "2024-01-01 09:00:00", resolved := none }
    reporter := { name := "Jane Banda", role := "Agent",
                  agent_number := some "A100", contact := some "jane@example.com" }
    region := "Lusaka"
    issue := { type := "Tokens", description := "Token not received", attachments := [] }
    status := st
    resolution := none
    handled_by := "admin" }

def sampleOpenCase : Case := sampleCase "Open"

def sampleClosedCase : Case := sampleCase "Closed"

/-- Three closed cases and one open case. -/
def threeClosedOneOpen : List Case :=
  [sampleCase "Closed", sampleCase "Closed", sampleCase "Closed", sampleCase "Open"]

/-- Case A of the spec's example scenario: WhatsApp, received
2024-01-01 10:00:00, logged 2024-01-01 10:15:00. -/
def whatsAppSampleCase : Case :=
  { sampleCase "Open" with
    channel := "WhatsApp"
    timestamps := { received := some "2024-01-01 10:00:00",
                    logged := "2024-01-01 10:15:00", resolved := none } }

/-- A WhatsApp case whose `received` parses but whose `logged` does not. -/
def badLoggedCase : Case :=
  { sampleCase "Open" with
    channel := "WhatsApp"
    timestamps := { received := some "2024-01-01 10:00:00",
                    logged := "not-a-date", resolved := none } }

/-- A concrete valid form submission that also supplies initial resolution
notes. -/
def sampleForm : FormData :=
  { channel := "Email"
    name := "Jane Banda"
    role := "Agent"
    agent_num := some "A100"
    phone := none
    email := some "jane@example.com"
    received_time := none
    region := "Lusaka"
    issue_type := "Tokens"
    description := "Token not received"
    resolution_notes := "called the agent"
    attachments := [] }

/-! Section: store lemmas -/

/-- After `save_case s c`, filtering by the saved key yields exactly `[c]`:
the REPLACE step first removes every row with that key. -/
theorem save_case_filter_key (s : List Case) (c : Case) :
    (save_case s c).filter (fun x => x.case_id == c.case_id) = [c] := by
  simp only [save_case, List.filter_append, List.filter_filter]
  have h1 : s.filter (fun x => x.case_id == c.case_id && !(x.case_id == c.case_id)) = [] := by
    apply List.filter_eq_nil_iff.mpr
    intro a _
    cases h : a.case_id == c.case_id <;> simp [h]
  have h2 : [c].filter (fun x => x.case_id == c.case_id) = [c] := by
    simp [List.filter]
  rw [h1, h2]
  rfl

/-! Section: claims -/

/-- Claim C1: for every case and non-empty resolution notes, resolving with
action "close" yields the case with status "Closed" and resolution
`{notes, actionTaken := "Closed by agent", timestamp := now}`, and resolving
with action "escalate" yields status "Open" and resolution
`{notes, actionTaken := "Escalated to senior support", timestamp := now}`;
in both branches the updated case is the unique record stored under its
`case_id` afterwards. -/
theorem resolve_close_escalate_updates_and_persists
    (s : List Case) (c : Case) (notes now : String) (hn : notes ≠ "") :
    (resolve_case s c notes .close now).2 =
      some { c with status := "Closed",
                    resolution := some ⟨notes, "Closed by agent", now⟩ } ∧
    (get_all_cases (resolve_case s c notes .close now).1).filter
        (fun x => x.case_id == c.case_id) =
      [{ c with status := "Closed",
                resolution := some ⟨notes, "Closed by agent", now⟩ }] ∧
    (resolve_case s c notes .escalate now).2 =
      some { c with status := "Open",
                    resolution := some ⟨notes, "Escalated to senior support", now⟩ } ∧
    (get_all_cases (resolve_case s c notes .escalate now).1).filter
        (fun x => x.case_id == c.case_id) =
      [{ c with status := "Open",
                resolution := some ⟨notes, "Escalated to senior support", now⟩ }] := by
  have h1 := save_case_filter_key s
    { c with status := "Closed", resolution := some ⟨notes, "Closed by agent", now⟩ }
  have h2 := save_case_filter_key s
    { c with status := "Open", resolution := some ⟨notes, "Escalated to senior support", now⟩ }
  refine ⟨?_, ?_, ?_, ?_⟩ <;> simp only [resolve_case, if_neg hn, get_all_cases]
  · exact h1
  · exact h2

/-- Witness for C1 at a concrete open case and concrete notes. -/
theorem resolve_close_witness :
    (resolve_case [] sampleOpenCase "fixed it" .close "2024-01-02 08:00:00").2 =
      some { sampleOpenCase with
             status := "Closed",
             resolution := some ⟨"fixed it", "Closed by agent", "2024-01-02 08:00:00"⟩ } :=
  (resolve_close_escalate_updates_and_persists [] sampleOpenCase "fixed it"
    "2024-01-02 08:00:00" (by decide)).1

/-- Claim C3: resolving with empty notes is rejected by validation and
changes nothing: the store is returned untouched and no updated case is
produced (the in-memory case is not modified, nothing is saved). -/
theorem resolve_empty_notes_noop (s : List Case) (c : Case)
    (act : ResolveAction) (now : String) :
    resolve_case s c "" act now = (s, none) := by
  simp [resolve_case]

/-- Claim C9: for every prior store state and every case, `save_case`
followed by `get_all_cases` yields exactly one record with that `case_id`,
and that record equals the case passed to the last save
(insert-or-replace round trip, last-write-wins). -/
theorem save_then_get_all_unique (s : List Case) (c : Case) :
    (get_all_cases (save_case s c)).filter (fun x => x.case_id == c.case_id) = [c] := by
  simpa [get_all_cases] using save_case_filter_key s c

/-- Claim C2, counterexample: it is not true that every operation on a
Closed case leaves its status "Closed" — resolving a Closed case with
action "escalate" and non-empty notes produces a successor with status
"Open" (nothing in `resolve_case` or the case list guards Closed cases
from the resolution form). -/
theorem closed_case_reopened_by_escalate :
    ¬ (∀ (s : List Case) (c : Case) (notes : String) (act : ResolveAction)
        (now : String) (c' : Case),
        c.status = "Closed" → (resolve_case s c notes act now).2 = some c' →
        c'.status = "Closed") := by
  intro h
  have hres := h [] sampleClosedCase "still broken" .escalate "2024-01-02 08:00:00"
    { sampleClosedCase with
      status := "Open",
      resolution := some ⟨"still broken", "Escalated to senior support",
                          "2024-01-02 08:00:00"⟩ }
    (by decide) (by decide)
  exact absurd hres (by decide)

/-- Claim C2, amended: Closed is not terminal.  Resolving a Closed case
with action "close" and non-empty notes leaves its status "Closed", but
resolving it with action "escalate" and non-empty notes produces a
successor with status "Open": a closed case can be reopened through the
escalate action of the resolution form. -/
theorem closed_not_terminal_amended (s : List Case) (c : Case) (notes now : String)
    (_hc : c.status = "Closed") (hn : notes ≠ "") :
    (resolve_case s c notes .close now).2.map Case.status = some "Closed" ∧
    (resolve_case s c notes .escalate now).2.map Case.status = some "Open" := by
  simp [resolve_case, hn]

/-- Witness for the amended C2 at a concrete Closed case. -/
theorem closed_not_terminal_witness :
    (resolve_case [] sampleClosedCase "still broken" .close "2024-01-02 08:00:00").2.map
        Case.status = some "Closed" ∧
    (resolve_case [] sampleClosedCase "still broken" .escalate "2024-01-02 08:00:00").2.map
        Case.status = some "Open" :=
  closed_not_terminal_amended [] sampleClosedCase "still broken" "2024-01-02 08:00:00"
    (by decide) (by decide)

/-- Claim C6: filtering with "All" is the identity; filtering with "Open"
keeps exactly the cases whose status is "Open" or the legacy value
"Escalated" (excluding "Closed"); filtering with "Closed" keeps exactly the
cases whose status is "Closed". -/
theorem filter_cases_all_open_closed (cases : List Case) (c : Case) :
    filter_cases "All" cases = cases ∧
    (c ∈ filter_cases "Open" cases ↔
      c ∈ cases ∧ (c.status = "Open" ∨ c.status = "Escalated")) ∧
    (c ∈ filter_cases "Closed" cases ↔ c ∈ cases ∧ c.status = "Closed") := by
  by_cases he : cases = []
  · subst he
    simp [filter_cases]
  · refine ⟨?_, ?_, ?_⟩ <;>
      simp [filter_cases, he, List.mem_filter]

/-- Claim C7: the resolution rate is `closedCount / totalCases * 100` for a
non-empty collection, is `0` (not an error) for the empty collection, and
equals `75` for three closed and one open case.  (The dashboard renders the
rational value with one decimal place; `75` displays as `75.0`.) -/
theorem resolution_rate_spec :
    (∀ cases : List Case, cases ≠ [] →
      resolution_rate cases =
        ((cases.countP (fun c => c.status == "Closed") : ℚ) / (cases.length : ℚ)) * 100) ∧
    resolution_rate [] = 0 ∧
    resolution_rate threeClosedOneOpen = 75 := by
  refine ⟨?_, ?_, ?_⟩
  · intro cases h
    simp [resolution_rate, h, closed_count, List.countP_eq_length_filter]
  · simp [resolution_rate]
  · have hc : closed_count threeClosedOneOpen = 3 := by decide
    have hl : threeClosedOneOpen.length = 4 := by decide
    have hne : threeClosedOneOpen ≠ [] := by decide
    simp only [resolution_rate, if_neg hne, hc, hl]
    norm_num

/-- Witness for C7's non-emptiness hypothesis at the concrete 3+1 list. -/
theorem resolution_rate_witness :
    resolution_rate threeClosedOneOpen =
      ((threeClosedOneOpen.countP (fun c => c.status == "Closed") : ℚ) /
        (threeClosedOneOpen.length : ℚ)) * 100 :=
  resolution_rate_spec.1 threeClosedOneOpen (by decide)

/-! Section: the case-id format (claim C4) -/

/-- A lowercase hexadecimal digit, as appears in `str(uuid.uuid4())`. -/
def isLowerHexChar (c : Char) : Bool := c.isDigit || ('a' ≤ c && c ≤ 'f')

/-- Literal `VL-` followed by eight decimal digits, a dash, and eight lowercase hex
digits. -/
def caseIdFormatL : List Char → Bool
  | 'V' :: 'L' :: '-' :: rest =>
    ((rest.take 8).length == 8) && (rest.take 8).all Char.isDigit &&
      (match rest.drop 8 with
       | '-' :: h => (h.length == 8) && h.all isLowerHexChar
       | _ => false)
  | _ => false

/-- The documented `VL-<YYYYMMDD>-<8-hex-random>` case-id format. -/
def case_id_format (s : String) : Bool := caseIdFormatL s.data

theorem string_data_append (s t : String) : (s ++ t).data = s.data ++ t.data := by
  cases s
  cases t
  rfl

/-- Claim C4: for every form whose five required fields and
channel-conditional fields are non-empty, `create_new_case` produces a case
with status "Open", with resolution `none` unless the form's resolution
notes are non-empty (then the "Initial notes" record stamped `now`), and
with a case id of the format `VL-<YYYYMMDD>-<8-hex-random>` whenever the
strftime result is eight digits and the uuid string starts with eight
lowercase hex digits, as `datetime.now().strftime('%Y%m%d')` and
`str(uuid.uuid4())` always do. -/
theorem create_case_valid_form (form : FormData) (dateStr uuidStr now username : String)
    (_hval : validate_case_form form.name form.role form.region form.issue_type
      form.description = true)
    (_hcond : channel_cond_ok form = true)
    (hdate : dateStr.data.length = 8) (hdig : dateStr.data.all Char.isDigit = true)
    (hulen : 8 ≤ uuidStr.data.length)
    (huhex : (uuidStr.data.take 8).all isLowerHexChar = true) :
    (create_new_case form dateStr uuidStr now username).status = "Open" ∧
    (form.resolution_notes = "" →
      (create_new_case form dateStr uuidStr now username).resolution = none) ∧
    (form.resolution_notes ≠ "" →
      (create_new_case form dateStr uuidStr now username).resolution =
        some ⟨form.resolution_notes, "Initial notes", now⟩) ∧
    case_id_format (create_new_case form dateStr uuidStr now username).case_id = true := by
  refine ⟨rfl, ?_, ?_, ?_⟩
  · intro h
    simp [create_new_case, h]
  · intro h
    simp [create_new_case, h]
  · show case_id_format (generate_case_id dateStr uuidStr) = true
    have hdata : (generate_case_id dateStr uuidStr).data =
        'V' :: 'L' :: '-' :: (dateStr.data ++ '-' :: uuidStr.data.take 8) := by
      simp [generate_case_id, string_data_append]
    have htake : (dateStr.data ++ '-' :: uuidStr.data.take 8).take 8 = dateStr.data := by
      rw [List.take_append_eq_append_take, hdate]
      simp
      exact le_of_eq hdate
    have hdrop : (dateStr.data ++ '-' :: uuidStr.data.take 8).drop 8 =
        '-' :: uuidStr.data.take 8 := by
      rw [List.drop_append_eq_append_drop, hdate]
      simp
      exact le_of_eq hdate
    have hlen8 : (uuidStr.data.take 8).length = 8 := by
      rw [List.length_take]
      omega
    rw [case_id_format, hdata]
    simp [caseIdFormatL, htake, hdrop, hdate, hdig, hlen8, huhex]

/-- Witness for C4 at a concrete valid form and concrete date/uuid strings. -/
theorem create_case_witness :
    case_id_format (create_new_case sampleForm "20240101"
      "1a2b3c4d-9f8e-4a4a-8b8b-123456789abc" "2024-01-01 09:00:00" "admin").case_id = true :=
  (create_case_valid_form sampleForm "20240101" "1a2b3c4d-9f8e-4a4a-8b8b-123456789abc"
    "2024-01-01 09:00:00" "admin" (by decide) (by decide) (by decide) (by decide)
    (by decide) (by decide)).2.2.2

/-- Claim C10: when no user named "admin" exists, `init_db` appends the
default active admin row `{admin, admin123, Admin, All, active}`, and login
with "admin"/"admin123" then succeeds, returning that user — in particular
on a fresh (empty) store. -/
theorem init_db_seeds_admin (users : List User)
    (h : users.all (fun u => u.username ≠ "admin") = true) :
    init_db users = users ++ [defaultAdmin] ∧
    login (init_db users) "admin" "admin123" = some defaultAdmin := by
  have hany : users.any (fun u => u.username == "admin") = false := by
    rw [List.any_eq_false]
    intro u hu
    have := List.all_eq_true.mp h u hu
    simpa using this
  have hinit : init_db users = users ++ [defaultAdmin] := by
    simp [init_db, hany]
  refine ⟨hinit, ?_⟩
  rw [hinit, login, List.find?_append]
  have hnone : users.find? (fun u =>
      u.username == "admin" && u.password == "admin123" && u.active) = none := by
    rw [List.find?_eq_none]
    intro u hu
    have := List.all_eq_true.mp h u hu
    simp at this
    simp [this]
  rw [hnone]
  rfl

/-- Witness for C10 on the fresh empty user store. -/
theorem init_db_seeds_admin_witness :
    init_db [] = [] ++ [defaultAdmin] ∧
    login (init_db []) "admin" "admin123" = some defaultAdmin :=
  init_db_seeds_admin [] (by decide)

/-! Section: reachable case states (claim C5)

`CaseReach c ever init` says the exposed operations can produce the
in-memory case `c`, where `ever` records whether the case has been closed
or escalated (i.e. successfully resolved) at least once, and `init`
records whether resolution notes were supplied on the creation form. -/

inductive CaseReach : Case → Bool → Bool → Prop where
  | created (form : FormData) (dateStr uuidStr now username : String)
      (hval : validate_case_form form.name form.role form.region form.issue_type
        form.description = true)
      (hcond : channel_cond_ok form = true) :
      CaseReach (create_new_case form dateStr uuidStr now username) false
        (form.resolution_notes != "")
  | resolved (s : List Case) (c : Case) (ever init : Bool) (notes : String)
      (act : ResolveAction) (now : String) (s' : List Case) (c' : Case)
      (hreach : CaseReach c ever init)
      (hres : resolve_case s c notes act now = (s', some c')) :
      CaseReach c' true init

/-- Claim C5, counterexample: it is not true that a reachable case's
resolution is non-null exactly when it has been closed or escalated at
least once — a case created with non-empty resolution notes on the intake
form already carries an "Initial notes" resolution before any resolve. -/
theorem resolution_without_resolve_cex :
    ¬ (∀ (c : Case) (ever init : Bool), CaseReach c ever init →
        c.resolution.isSome = ever) := by
  intro h
  have hc := h (create_new_case sampleForm "20240101" "1a2b3c4d-9f8e-4a4a-8b8b-123456789abc"
      "2024-01-01 09:00:00" "admin") false (sampleForm.resolution_notes != "")
    (CaseReach.created sampleForm "20240101" "1a2b3c4d-9f8e-4a4a-8b8b-123456789abc"
      "2024-01-01 09:00:00" "admin" (by decide) (by decide))
  exact absurd hc (by decide)

/-- Claim C5, amended: for every reachable case, the resolution field is
non-null if and only if the case has been closed or escalated at least
once OR resolution notes were supplied at creation time. -/
theorem resolution_iff_resolved_or_initial_notes (c : Case) (ever init : Bool)
    (h : CaseReach c ever init) : c.resolution.isSome = (ever || init) := by
  induction h with
  | created form dateStr uuidStr now username hval hcond =>
    by_cases hn : form.resolution_notes = "" <;>
      simp [create_new_case, hn]
  | resolved s c ever init notes act now s' c' hreach hres ih =>
    by_cases hn : notes = ""
    · simp [resolve_case, hn] at hres
    · simp only [resolve_case, if_neg hn, Prod.mk.injEq] at hres
      obtain ⟨-, hc'⟩ := hres
      rw [← Option.some_inj.mp hc']
      simp

/-- Witness for the amended C5 at a concrete created-with-notes case. -/
theorem resolution_iff_witness :
    (create_new_case sampleForm "20240101" "1a2b3c4d-9f8e-4a4a-8b8b-123456789abc"
      "2024-01-01 09:00:00" "admin").resolution.isSome =
      (false || (sampleForm.resolution_notes != "")) :=
  resolution_iff_resolved_or_initial_notes _ false (sampleForm.resolution_notes != "")
    (CaseReach.created sampleForm "20240101" "1a2b3c4d-9f8e-4a4a-8b8b-123456789abc"
      "2024-01-01 09:00:00" "admin" (by decide) (by decide))

/-- Claim C8, counterexample: the metric is not defined exactly when the
channel is WhatsApp and `timestamps.received` parses — the code also parses
`timestamps.logged` inside the same `try`, so a WhatsApp case whose
`received` parses but whose `logged` does not has the metric omitted. -/
theorem whatsapp_minutes_needs_logged_cex :
    ¬ (∀ c : Case, (whatsapp_response_minutes c).isSome =
        (c.channel == "WhatsApp" &&
          (c.timestamps.received.elim false (fun r => (parseDT r).isSome)))) := by
  intro h
  have hb := h badLoggedCase
  exact absurd hb (by decide)

/-- Claim C8, amended: the WhatsApp response metric is defined exactly when
the channel is "WhatsApp", `timestamps.received` is present and parses as
`%Y-%m-%d %H:%M:%S`, and `timestamps.logged` also parses; it then equals
`(logged - received)` in minutes.  A parse failure yields `none` (the
metric is omitted, not zero, and nothing is aborted), and the spec's
example — received 2024-01-01 10:00:00, logged 2024-01-01 10:15:00 —
evaluates to 15 minutes. -/
theorem whatsapp_minutes_spec :
    (∀ c : Case,
      ((whatsapp_response_minutes c).isSome = true ↔
        (c.channel = "WhatsApp" ∧ ∃ r rd ld, c.timestamps.received = some r ∧
          parseDT r = some rd ∧ parseDT c.timestamps.logged = some ld)) ∧
      (∀ r rd ld, c.channel = "WhatsApp" → c.timestamps.received = some r →
        parseDT r = some rd → parseDT c.timestamps.logged = some ld →
        whatsapp_response_minutes c =
          some ((((dtSecs ld : ℤ) - (dtSecs rd : ℤ) : ℤ) : ℚ) / 60))) ∧
    whatsapp_response_minutes whatsAppSampleCase = some 15 := by
  constructor
  · intro c
    constructor
    · by_cases hch : c.channel = "WhatsApp"
      · cases hr : c.timestamps.received with
        | none => simp [whatsapp_response_minutes, hch, hr]
        | some r =>
          by_cases hre : r = ""
          · subst hre
            have hpe : parseDT "" = none := rfl
            simp [whatsapp_response_minutes, hch, hr, hpe]
          · cases hpr : parseDT r <;> cases hpl : parseDT c.timestamps.logged <;>
              simp [whatsapp_response_minutes, hch, hr, hre, hpr, hpl]
      · simp [whatsapp_response_minutes, hch]
    · intro r rd ld hch hr hpr hpl
      have hre : r ≠ "" := by
        intro he
        subst he
        rw [show parseDT "" = none from rfl] at hpr
        exact Option.noConfusion hpr
      simp [whatsapp_response_minutes, hch, hr, hre, hpr, hpl]
  · have hr : parseDT "2024-01-01 10:00:00" = some ⟨2024, 1, 1, 10, 0, 0⟩ := by decide
    have hl : parseDT "2024-01-01 10:15:00" = some ⟨2024, 1, 1, 10, 15, 0⟩ := by decide
    have hch : whatsAppSampleCase.channel = "WhatsApp" := rfl
    have hrec : whatsAppSampleCase.timestamps.received = some "2024-01-01 10:00:00" := rfl
    have hlog : whatsAppSampleCase.timestamps.logged = "2024-01-01 10:15:00" := rfl
    have hne : ("2024-01-01 10:00:00" : String) ≠ "" := by decide
    rw [whatsapp_response_minutes, hch, if_pos rfl, hrec, hlog]
    simp only [if_neg hne, hr, hl]
    norm_num [dtSecs, daysFromCivil, daysBeforeMonth, isLeap]

/-- Witness for the amended C8's hypotheses at the spec's example case. -/
theorem whatsapp_minutes_witness :
    whatsapp_response_minutes whatsAppSampleCase =
      some ((((dtSecs ⟨2024, 1, 1, 10, 15, 0⟩ : ℤ) -
        (dtSecs ⟨2024, 1, 1, 10, 0, 0⟩ : ℤ) : ℤ) : ℚ) / 60) :=
  (whatsapp_minutes_spec.1 whatsAppSampleCase).2 "2024-01-01 10:00:00"
    ⟨2024, 1, 1, 10, 0, 0⟩ ⟨2024, 1, 1, 10, 15, 0⟩ rfl rfl (by decide) (by decide)

